import Mathlib

/-!
Verification of the PrompLab declarative data-cleaning pipeline engine
against its natural-language specification.

Shallow embedding conventions:
* Code present in src/code-excerpts/backend_example.py is translated
  directly (cleaning_action, ACTION_MAP, ModelManager, the lazy model
  loader, recalculate_pipeline_preview, process_uploaded_file).
* Components of this repository whose bodies are absent from src/
  (preprocess_nulls_and_text, the registry transforms, execute_pipeline,
  the diagnostics generators, the extension helper) are modelled from the
  spec; their doc comments start with "Modelled from the spec:".
* Stateful code is embedded by explicit state passing; the trace of
  Preprocessor/transform invocations performed while running the pipeline
  is made explicit as a list of events so that claims about how often the
  Preprocessor runs, and which dataset each transform receives, are
  statable.
-/

/-- Cell values of a tabular dataset: numeric, string, date, or null
(spec section 3, "Dataset"). Dates are modelled as day numbers. -/
inductive Value
  | num (n : Int)
  | str (s : String)
  | date (d : Nat)
  | null
deriving DecidableEq

/-- A dataset: an ordered list of column names plus rows of cells
(record orientation, matching the pandas DataFrame of the source).
Spec section 3 requires all columns to have equal length; that is the
well-formedness predicate below. -/
structure Dataset where
  header : List String
  rows : List (List Value)
deriving DecidableEq

/-- Well-formedness of a dataset: every row has exactly one cell per
column (spec section 3: equal length across columns). -/
def Dataset.wf (d : Dataset) : Bool :=
  d.rows.all (fun r => r.length == d.header.length)

/-- Step of a declarative pipeline: an action identifier plus a parameter
mapping (spec section 3, "Step"). -/
structure Step where
  action : String
  params : List (String × Value)
deriving DecidableEq

/-- Parameter lookup in a step's parameter mapping. -/
def getParam (ps : List (String × Value)) (k : String) : Option Value :=
  (ps.find? (fun kv => kv.1 == k)).map Prod.snd

/- ===================== Preprocessor ===================== -/

/-- Whitespace test used by the Preprocessor's trimming. -/
def wsp (c : Char) : Bool := c.isWhitespace

/-- Trim leading and trailing whitespace from a character list. -/
def trimChars (l : List Char) : List Char :=
  ((l.dropWhile wsp).reverse.dropWhile wsp).reverse

/-- Lower-case a character list. -/
def lowerChars (l : List Char) : List Char := l.map Char.toLower

/-- Modelled from the spec: the sentinel tokens that the Preprocessor of
preprocess_nulls_and_text (body absent from src/) normalizes to the
canonical null marker - empty string, whitespace-only strings (empty
after trimming) and common null sentinels (spec section 4.2). -/
def nullTokens : List String := ["", "na", "n/a", "none", "null", "nan"]

/-- Modelled from the spec: string-cell normalization of
preprocess_nulls_and_text - trim surrounding whitespace, then map null
sentinel spellings to the canonical null marker. -/
def prepStr (s : String) : Value :=
  if nullTokens.contains (String.mk (lowerChars (trimChars s.data))) then Value.null
  else Value.str (String.mk (trimChars s.data))

/-- Cell normalization: only string cells are rewritten. -/
def prepCell : Value → Value
  | Value.str s => prepStr s
  | v => v

/-- Modelled from the spec: preprocess_nulls_and_text (called at
backend_example.py line 185; its body is absent from src/) per spec
section 4.2 - normalize null representations to one canonical null and
trim whitespace in string cells; column structure is unchanged. -/
def preprocess_nulls_and_text (d : Dataset) : Dataset :=
  ⟨d.header, d.rows.map (fun r => r.map prepCell)⟩

/- ===================== Diagnostics ===================== -/

/-- Exact unreduced fraction (numerator, denominator) used for the
null-value proportion of a column, avoiding any rounding. -/
structure Frac where
  num : Nat
  den : Nat
deriving DecidableEq

/-- Inferred column type categories (spec section 4.4): majority vote
over non-null values, degrading to unknown for all-null columns. -/
inductive InferredType
  | numeric
  | text
  | date
  | unknown
deriving DecidableEq

/-- Per-column diagnostics record (spec section 3, "Diagnostics"). -/
structure ColDiag where
  null_frac : Frac
  inferred_type : InferredType
  distinct_estimate : Nat
deriving DecidableEq

/-- Dataset-level diagnostics snapshot (spec section 3). -/
structure Diagnostics where
  row_count : Nat
  column_count : Nat
  per_column : List (String × ColDiag)
  duplicate_row_estimate : Nat
deriving DecidableEq

def isNull : Value → Bool
  | Value.null => true
  | _ => false

def isNum : Value → Bool
  | Value.num _ => true
  | _ => false

def isStr : Value → Bool
  | Value.str _ => true
  | _ => false

def isDate : Value → Bool
  | Value.date _ => true
  | _ => false

/-- Column j of a dataset, read off the rows (missing cells - which do
not occur in well-formed datasets - read as null). -/
def colAt (d : Dataset) (j : Nat) : List Value :=
  d.rows.map (fun r => r.getD j Value.null)

/-- First-occurrence deduplication of rows (pandas drop_duplicates keeps
the first occurrence). -/
def dedupKeepFirst (xs : List (List Value)) : List (List Value) :=
  xs.foldl (fun acc r => if acc.contains r then acc else acc ++ [r]) []

/-- Distinct values of a column, keeping first occurrences. -/
def distinctVals (cells : List Value) : List Value :=
  cells.foldl (fun acc v => if acc.contains v then acc else acc ++ [v]) []

/-- Modelled from the spec: deterministic majority-vote type inference of
the Diagnostics Generator (spec section 4.4); all-null columns degrade to
the unknown category rather than failing. -/
def inferType (cells : List Value) : InferredType :=
  let nn := cells.filter (fun v => !(isNull v))
  if nn.isEmpty then InferredType.unknown
  else
    let nc := (nn.filter isNum).length
    let sc := (nn.filter isStr).length
    let dc := (nn.filter isDate).length
    if sc ≤ nc && dc ≤ nc then InferredType.numeric
    else if dc ≤ sc then InferredType.text
    else InferredType.date

/-- Per-column diagnostics: null proportion, inferred type, distinct
count (spec section 3). -/
def analyzeCol (cells : List Value) : ColDiag :=
  ⟨⟨(cells.filter isNull).length, cells.length⟩, inferType cells,
   (distinctVals cells).length⟩

/-- Modelled from the spec: get_preliminary_analysis (called at
backend_example.py line 196; body absent from src/), the Diagnostics
Generator of spec section 4.4 - a pure snapshot summary computed fresh
from the dataset it describes. -/
def get_preliminary_analysis (d : Dataset) : Diagnostics :=
  ⟨d.rows.length, d.header.length,
   (List.range d.header.length).map (fun j => (d.header.getD j "", analyzeCol (colAt d j))),
   d.rows.length - (dedupKeepFirst d.rows).length⟩

/-- Modelled from the spec: generate_smart_diagnostics (called at
backend_example.py line 224; body absent from src/). The spec has a
single Diagnostics Generator, so both diagnostics entry points are
modelled by the same analysis. -/
def generate_smart_diagnostics (d : Dataset) : Diagnostics :=
  get_preliminary_analysis d

/-- Diagnostics.analyze of the spec (sections 4.4 and 4.5), realized by
the same generator. -/
def analyze (d : Dataset) : Diagnostics :=
  get_preliminary_analysis d

/- ===================== Registry transforms ===================== -/

/-- Failure modes of a transform (spec section 7): parameter rejection
and unexpected runtime failure. -/
inductive TransformError
  | invalidParams (msg : String)
  | runtimeError (msg : String)
deriving DecidableEq

/-- Numeric entries of a column. -/
def numVals (cells : List Value) : List Int :=
  cells.filterMap (fun v => match v with | Value.num n => some n | _ => none)

/-- Integer mean of the numeric entries of a column, when any exist. -/
def colMean (cells : List Value) : Option Int :=
  let ns := numVals cells
  if ns.length = 0 then none
  else some (Int.ediv (ns.foldl (fun a b => a + b) 0) (Int.ofNat ns.length))

/-- Modelled from the spec: the eliminar_duplicados transform referenced
by ACTION_MAP (body absent from src/) - removes duplicate rows, keeping
first occurrences (spec section 8 example). -/
def eliminar_duplicados (d : Dataset) (_ps : List (String × Value)) :
    Except TransformError (Dataset × String) :=
  Except.ok (⟨d.header, dedupKeepFirst d.rows⟩, "duplicados eliminados")

/-- Helper for mean imputation: per-column replacement value (defined
only for columns whose non-null cells are all numeric). -/
def meansFor (d : Dataset) : List (Option Int) :=
  (List.range d.header.length).map (fun j =>
    let cells := colAt d j
    if (cells.filter (fun v => !(isNull v))).all isNum then colMean cells else none)

/-- Replace a null cell by the column's imputation value when one exists. -/
def imputeCell (means : List (Option Int)) (j : Nat) (v : Value) : Value :=
  match v with
  | Value.null =>
    match means.getD j none with
    | some m => Value.num m
    | none => Value.null
  | w => w

/-- Modelled from the spec: the imputar_nulos_numericos transform
referenced by ACTION_MAP (body absent from src/) - replaces nulls of
numeric columns by the column mean for method "mean" (spec section 8
example); any other or missing method is an InvalidParams failure. -/
def imputar_nulos_numericos (d : Dataset) (ps : List (String × Value)) :
    Except TransformError (Dataset × String) :=
  match getParam ps "method" with
  | some (Value.str "mean") =>
    Except.ok (⟨d.header, d.rows.map (fun r => r.mapIdx (fun j v => imputeCell (meansFor d) j v))⟩,
               "nulos numericos imputados")
  | some _ => Except.error (TransformError.invalidParams "unsupported imputation method")
  | none => Except.error (TransformError.invalidParams "missing imputation method")

/-- Digits-only string-to-number reading used by date coercion. -/
def charsToNat? (l : List Char) : Option Nat :=
  if !l.isEmpty && l.all Char.isDigit then
    some (l.foldl (fun acc c => acc * 10 + (c.toNat - 48)) 0)
  else none

/-- Single-cell date coercion; none signals a coercion failure. -/
def cellToDate (v : Value) : Option Value :=
  match v with
  | Value.str s => (charsToNat? s.data).map Value.date
  | Value.num n => some (Value.date n.toNat)
  | Value.date n => some (Value.date n)
  | Value.null => some Value.null

/-- Modelled from the spec: the convertir_a_fecha transform referenced by
ACTION_MAP (body absent from src/) - converts a named column to dates; a
missing column parameter is an InvalidParams failure and an inconvertible
cell is a TransformRuntimeError (spec section 7, type coercion failure). -/
def convertir_a_fecha (d : Dataset) (ps : List (String × Value)) :
    Except TransformError (Dataset × String) :=
  match getParam ps "column" with
  | some (Value.str c) =>
    match d.header.findIdx? (fun h => h == c) with
    | none => Except.error (TransformError.invalidParams "unknown column")
    | some j =>
      let converted := d.rows.map (fun r => r.mapIdx (fun i v => if i = j then cellToDate v else some v))
      if converted.all (fun r => r.all Option.isSome) then
        Except.ok (⟨d.header, converted.map (fun r => r.map (fun o => o.getD Value.null))⟩,
                   "columna convertida a fecha")
      else Except.error (TransformError.runtimeError "date coercion failed")
  | _ => Except.error (TransformError.invalidParams "missing column")

/-- Modelled from the spec: the crear_columna_calculada_wrapper transform
referenced by ACTION_MAP (body absent from src/) - appends a calculated
column named by the params; missing params are an InvalidParams failure. -/
def crear_columna_calculada_wrapper (d : Dataset) (ps : List (String × Value)) :
    Except TransformError (Dataset × String) :=
  match getParam ps "new_column", getParam ps "value" with
  | some (Value.str name), some v =>
    Except.ok (⟨d.header ++ [name], d.rows.map (fun r => r ++ [v])⟩, "columna calculada creada")
  | _, _ => Except.error (TransformError.invalidParams "missing new_column or value")

/- ===================== Action registry and dispatcher ===================== -/

/-- ACTION_MAP of backend_example.py lines 170-175: the closed whitelist
from public action identifiers to internal transform function names. -/
def ACTION_MAP : List (String × String) :=
  [("general_drop_duplicates", "eliminar_duplicados"),
   ("numeric_impute_by_method", "imputar_nulos_numericos"),
   ("type_convert_to_date", "convertir_a_fecha"),
   ("general_create_calculated_column", "crear_columna_calculada_wrapper")]

/-- Registry resolution: exact string lookup of an action identifier in
ACTION_MAP (backend_example.py lines 187 and 191). -/
def lookupAction (a : String) : Option String :=
  (ACTION_MAP.find? (fun kv => kv.1 == a)).map Prod.snd

/-- Modelled from the spec: execute_function (called at
backend_example.py line 193; body absent from src/) - dispatch of an
internal function name to the registered transform implementation. A
name outside the known internal functions is a runtime failure. -/
def execute_function (fname : String) (d : Dataset) (ps : List (String × Value)) :
    Except TransformError (Dataset × String) :=
  if fname == "eliminar_duplicados" then eliminar_duplicados d ps
  else if fname == "imputar_nulos_numericos" then imputar_nulos_numericos d ps
  else if fname == "convertir_a_fecha" then convertir_a_fecha d ps
  else if fname == "crear_columna_calculada_wrapper" then crear_columna_calculada_wrapper d ps
  else Except.error (TransformError.runtimeError ("unknown internal function: " ++ fname))

/-- Failure taxonomy of a dispatched step: the ValueError raised for an
action outside ACTION_MAP (backend_example.py line 188), or a transform
failure propagated out of execute_function. -/
inductive CleanError
  | unknownAction (a : String)
  | transformFailed (e : TransformError)
deriving DecidableEq

/-- Human-readable rendering of a step failure, used for receipts. -/
def describeCleanError : CleanError → String
  | CleanError.unknownAction a => "Unknown cleaning action: " ++ a
  | CleanError.transformFailed (TransformError.invalidParams m) => "invalid params: " ++ m
  | CleanError.transformFailed (TransformError.runtimeError m) => "transform error: " ++ m

/-- Observable engine events: an application of the Preprocessor, or an
invocation of a registered transform together with the exact dataset
passed to it. Each event marks one call site executed by the embedded
code. -/
inductive Event
  | prep
  | exec (fname : String) (input : Dataset)
deriving DecidableEq

def Event.isPrep : Event → Bool
  | Event.prep => true
  | _ => false

/-- Number of Preprocessor applications recorded in a trace. -/
def countPrep (evs : List Event) : Nat :=
  (evs.filter Event.isPrep).length

/-- cleaning_action of backend_example.py lines 177-198, the central
dispatcher: it first applies preprocess_nulls_and_text to its input
(line 185), then validates the action against ACTION_MAP raising for
unknown actions (lines 187-188), then runs the registered transform via
execute_function (line 193) and recomputes diagnostics (line 196).
Python exceptions are embedded as Except.error; the returned trace
records the Preprocessor application and any transform invocation. -/
def cleaning_action (df : Dataset) (action : String) (ps : List (String × Value)) :
    Except CleanError (Dataset × Diagnostics) × List Event :=
  let df_prepared := preprocess_nulls_and_text df
  match lookupAction action with
  | none => (Except.error (CleanError.unknownAction action), [Event.prep])
  | some fname =>
    match execute_function fname df_prepared ps with
    | Except.ok (df_cleaned, _msg) =>
      (Except.ok (df_cleaned, get_preliminary_analysis df_cleaned),
       [Event.prep, Event.exec fname df_prepared])
    | Except.error e =>
      (Except.error (CleanError.transformFailed e), [Event.prep, Event.exec fname df_prepared])

/- ===================== Pipeline orchestrator ===================== -/

/-- Audit record of one executed step (spec section 3, "Receipt"). -/
structure Receipt where
  action : String
  success : Bool
  message : String
  rows_before : Nat
  rows_after : Nat
deriving DecidableEq

/-- Top-level unrecoverable pipeline conditions (spec section 7): a
malformed base dataset. -/
inductive PipelineError
  | malformedBase
deriving DecidableEq

/-- Modelled from the spec: the step loop of
pipeline_orchestrator.execute_pipeline (called at backend_example.py
line 218; body absent from src/), per spec section 4.5 step 2 - steps
run in order through the dispatcher cleaning_action, one receipt is
appended per attempted step, and in the reference strict mode the loop
halts at the first failing step, leaving later steps unattempted and
unreceipted. -/
def pipelineLoop : Dataset → List Step → (Dataset × List Receipt) × List Event
  | w, [] => ((w, []), [])
  | w, s :: rest =>
    match cleaning_action w s.action s.params with
    | (Except.ok (w2, _diag), ev) =>
      let r := pipelineLoop w2 rest
      ((r.1.1, ⟨s.action, true, "ok", w.rows.length, w2.rows.length⟩ :: r.1.2), ev ++ r.2)
    | (Except.error e, ev) =>
      ((w, [⟨s.action, false, describeCleanError e, w.rows.length, w.rows.length⟩]), ev)

/-- Modelled from the spec: pipeline_orchestrator.execute_pipeline (body
absent from src/; only its call at backend_example.py line 218 is
visible), per spec section 4.5 - reject a malformed base dataset as a
top-level PipelineError, otherwise prepare the base dataset once, run
the step loop on the prepared copy, and return the final dataset, the
receipts, and fresh diagnostics of the final dataset. The trace collects
every Preprocessor application and transform invocation performed. -/
def execute_pipeline (base : Dataset) (steps : List Step) :
    Except PipelineError (Dataset × List Receipt × Diagnostics) × List Event :=
  if base.wf then
    let r := pipelineLoop (preprocess_nulls_and_text base) steps
    (Except.ok (r.1.1, r.1.2, analyze r.1.1), Event.prep :: r.2)
  else (Except.error PipelineError.malformedBase, [])

/-- Receipts carried by an engine result (empty for the top-level error). -/
def receiptsOf (r : Except PipelineError (Dataset × List Receipt × Diagnostics)) :
    List Receipt :=
  match r with
  | Except.ok t => t.2.1
  | Except.error _ => []

/- ===================== Preview route ===================== -/

/-- Response payload of the preview route (backend_example.py lines
226-230): bounded preview, diagnostics, receipts, or the top-level
failure. -/
structure RouteResponse where
  preview : List (List Value)
  diagnostics : Option Diagnostics
  receipts : List Receipt
  failure : Option PipelineError
deriving DecidableEq

/-- Server-side state visible to the preview route: the stored original
dataset of the user (the route never persists pipeline results). -/
structure ServerState where
  stored : Dataset
deriving DecidableEq

/-- load_original_dataset of backend_example.py line 215: reads the
stored original dataset. -/
def load_original_dataset (st : ServerState) : Dataset :=
  st.stored

/-- recalculate_pipeline_preview of backend_example.py lines 204-230:
loads the original dataset, executes the pipeline in memory, and returns
the first 100 rows, diagnostics and receipts without persisting any
change; the updated server state is returned explicitly to make the
absence of mutation statable. -/
def recalculate_pipeline_preview (st : ServerState) (steps : List Step) :
    ServerState × RouteResponse :=
  let df_original := load_original_dataset st
  match (execute_pipeline df_original steps).1 with
  | Except.ok (d, rs, g) => (st, ⟨d.rows.take 100, some g, rs, none⟩)
  | Except.error e => (st, ⟨[], none, [], some e⟩)

/- ===================== ModelManager ===================== -/

/-- AVAILABLE_TOOLS of backend_example.py lines 77-82. -/
def AVAILABLE_TOOLS : List (String × String) :=
  [("API: Google Gemini Pro", "models/gemini-flash-latest"),
   ("API: OpenAI GPT-4o", "gpt-4o"),
   ("Local: Image Classifier (ViT)", "google/vit-base-patch16-224"),
   ("Local: Object Detector (YOLOv8n)", "yolov8n.pt")]

/-- State of one ModelManager instance (backend_example.py lines 68-91):
the initDone flag models the _initialized attribute (absent before first
initialization, hence false on a fresh instance); loaded models are
identified by opaque numeric handles. -/
structure ModelManagerState where
  initDone : Bool
  availableTools : List (String × String)
  imageClassifier : Option Nat
  objectDetector : Option Nat
deriving DecidableEq

/-- ModelManager.__new__ (backend_example.py lines 60-66), single-thread
step semantics of the double-checked singleton: given the class-level
_instance slot and a fresh instance identifier, return the instance the
construction yields and the updated slot. -/
def modelManagerNew (inst : Option Nat) (fresh : Nat) : Nat × Option Nat :=
  match inst with
  | some i => (i, some i)
  | none => (fresh, some fresh)

/-- ModelManager.__init__ (backend_example.py lines 68-91): an already
initialized instance returns unchanged (lines 70-71); otherwise the tools
registry is installed, both lazy model slots are set to None, and the
initDone flag is set. -/
def modelManagerInit (st : ModelManagerState) : ModelManagerState :=
  if st.initDone then st
  else ⟨true, AVAILABLE_TOOLS, none, none⟩

/-- Outcome of one _get_or_load_image_classifier call: the value
returned, the cached slot afterwards, and whether the call entered the
load attempt. -/
structure LoadCall where
  result : Option Nat
  state : Option Nat
  attempted : Bool
deriving DecidableEq

/-- ModelManager._get_or_load_image_classifier (backend_example.py lines
98-114), single-thread step semantics: when the cached slot is empty the
load is attempted (loadResult is the loaded model, or none when the
pipeline construction raises, in which case the except branch stores
None, line 113); when the slot is filled it is returned without any load
attempt. The lock only serializes concurrent first loads and is elided
in this sequential step relation. -/
def getOrLoadImageClassifier (st : Option Nat) (loadResult : Option Nat) : LoadCall :=
  match st with
  | some c => ⟨some c, some c, false⟩
  | none => ⟨loadResult, loadResult, true⟩

/- ===================== File upload validation ===================== -/

/-- MAX_FILE_SIZE_MB of backend_example.py line 258. -/
def MAX_FILE_SIZE_MB : Nat := 5

/-- MAX_ROWS of backend_example.py line 259. -/
def MAX_ROWS : Nat := 10000

/-- ALLOWED_EXTENSIONS of backend_example.py line 260. -/
def ALLOWED_EXTENSIONS : List String := ["csv", "xlsx", "pdf", "txt"]

/-- Characters after the last dot of a filename, or none when the name
contains no dot. -/
def extTail (l : List Char) : Option (List Char) :=
  if l.contains '.' then
    some ((l.reverse.takeWhile (fun c => !(c == '.'))).reverse)
  else none

/-- Modelled from the spec: the _is_allowed_extension helper (called at
backend_example.py line 268; body absent from src/) - the spec treats
extension validation as membership of the lowercased last-dot suffix in
ALLOWED_EXTENSIONS (spec section 1 file-validation collaborator and the
ALLOWED_EXTENSIONS constant). -/
def is_allowed_extension (filename : String) : Bool :=
  match extTail filename.data with
  | some e => ALLOWED_EXTENSIONS.contains (String.mk (lowerChars e))
  | none => false

/-- Suffix test on the character lists of strings (embeds Python
str.endswith without relying on byte positions). -/
def strEndsWith (s suffixStr : String) : Bool :=
  s.data.reverse.take suffixStr.data.length == suffixStr.data.reverse

/-- Parsed views of an uploaded stream: the table pd.read_csv would
produce (none embeds a parsing exception) and the text
_extract_text_from_pdf would produce (none embeds an extraction or
length-validation exception); both parsers are absent from src/ and the
claims never depend on their internals. -/
structure FileStream where
  csvTable : Option Dataset
  pdfText : Option String
deriving DecidableEq

/-- Result values of process_uploaded_file: the error dictionaries, the
csv success dictionary and the pdf success dictionary of
backend_example.py lines 262-295. -/
inductive UploadResponse
  | failure (error : String)
  | csvOk (content : List (List Value)) (columns : List String)
  | pdfOk (content : String)
deriving DecidableEq

/-- process_uploaded_file of backend_example.py lines 262-295: reject
disallowed extensions, parse csv files (empty tables and parser
exceptions become error dictionaries), parse pdf files (exceptions
become error dictionaries), and fall through every branch - returning
Python None, embedded as Option.none - for any other allowed extension. -/
def process_uploaded_file (fs : FileStream) (filename : String) : Option UploadResponse :=
  if !(is_allowed_extension filename) then
    some (UploadResponse.failure "Security: Extension not allowed.")
  else if strEndsWith filename ".csv" then
    match fs.csvTable with
    | none => some (UploadResponse.failure "File processing failed.")
    | some df =>
      if df.rows.isEmpty then some (UploadResponse.failure "Empty dataset")
      else some (UploadResponse.csvOk df.rows df.header)
  else if strEndsWith filename ".pdf" then
    match fs.pdfText with
    | none => some (UploadResponse.failure "File processing failed.")
    | some t => some (UploadResponse.pdfOk t)
  else none

/- ===================== Supporting lemmas ===================== -/

theorem dropWhile_stable (p : Char → Bool) (l : List Char) :
    (l.dropWhile p).dropWhile p = l.dropWhile p := by
  induction l with
  | nil => rfl
  | cons a t ih =>
    by_cases h : p a
    · simp [List.dropWhile_cons, h, ih]
    · simp [List.dropWhile_cons, h]

theorem dropWhile_length_le (p : Char → Bool) (l : List Char) :
    (l.dropWhile p).length ≤ l.length := by
  induction l with
  | nil => simp
  | cons a t ih =>
    by_cases h : p a
    · simp only [List.dropWhile_cons, h, if_true]
      exact Nat.le_trans ih (Nat.le_succ _)
    · simp [List.dropWhile_cons, h]

theorem dropWhile_fix_head (p : Char → Bool) (a : Char) (m : List Char)
    (h : (a :: m).dropWhile p = a :: m) : p a = false := by
  by_cases hpa : p a
  · exfalso
    rw [List.dropWhile_cons_of_pos hpa] at h
    have hlen := dropWhile_length_le p m
    rw [h] at hlen
    simp at hlen
  · simpa using hpa

theorem rtrim_keeps_noLead (p : Char → Bool) (l : List Char) (h : l.dropWhile p = l) :
    ((l.reverse.dropWhile p).reverse).dropWhile p = (l.reverse.dropWhile p).reverse := by
  cases l with
  | nil => rfl
  | cons a t =>
    have hpa : p a = false := dropWhile_fix_head p a t h
    rw [List.reverse_cons, List.dropWhile_append]
    by_cases he : (t.reverse.dropWhile p).isEmpty
    · simp [he, List.dropWhile_cons, hpa]
    · simp only [he, if_false, Bool.false_eq_true]
      rw [List.reverse_append]
      simp [List.dropWhile_cons, hpa]

theorem trimChars_stable (l : List Char) : trimChars (trimChars l) = trimChars l := by
  have h1 := dropWhile_stable wsp l
  have h2 := dropWhile_stable wsp (l.dropWhile wsp).reverse
  have h3 := rtrim_keeps_noLead wsp (l.dropWhile wsp) h1
  unfold trimChars
  rw [h3, List.reverse_reverse, h2]

theorem prepStr_stable (s : String) : prepCell (prepStr s) = prepStr s := by
  unfold prepStr
  split
  · rfl
  · rename_i h
    show prepStr (String.mk (trimChars s.data)) = Value.str (String.mk (trimChars s.data))
    unfold prepStr
    rw [show (String.mk (trimChars s.data)).data = trimChars s.data from rfl]
    rw [trimChars_stable]
    rw [if_neg h]

theorem prepCell_stable (v : Value) : prepCell (prepCell v) = prepCell v := by
  cases v with
  | str s => exact prepStr_stable s
  | num n => rfl
  | date d => rfl
  | null => rfl

theorem map_prepCell_stable (r : List Value) :
    (r.map prepCell).map prepCell = r.map prepCell := by
  induction r with
  | nil => rfl
  | cons a t ih => simp [prepCell_stable, ih]

theorem countPrep_append (a b : List Event) :
    countPrep (a ++ b) = countPrep a + countPrep b := by
  simp [countPrep, List.filter_append]

theorem countPrep_cons_prep (tr : List Event) :
    countPrep (Event.prep :: tr) = 1 + countPrep tr := by
  simp [countPrep, Event.isPrep, Nat.add_comm]

theorem cleanAction_prep_count (df : Dataset) (a : String) (p : List (String × Value)) :
    countPrep (cleaning_action df a p).2 = 1 := by
  rcases hl : lookupAction a with _ | fname
  · simp [cleaning_action, hl, countPrep, Event.isPrep]
  · rcases he : execute_function fname (preprocess_nulls_and_text df) p with e | val
    · simp [cleaning_action, hl, he, countPrep, Event.isPrep]
    · rcases val with ⟨dd, msg⟩
      simp [cleaning_action, hl, he, countPrep, Event.isPrep]

theorem loop_prep_receipts (steps : List Step) :
    ∀ w, countPrep (pipelineLoop w steps).2 = ((pipelineLoop w steps).1.2).length := by
  induction steps with
  | nil => intro w; rfl
  | cons s rest ih =>
    intro w
    rcases h : cleaning_action w s.action s.params with ⟨res, ev⟩
    have hev : countPrep ev = 1 := by
      have hc := cleanAction_prep_count w s.action s.params
      rw [h] at hc
      exact hc
    cases res with
    | ok val =>
      rcases val with ⟨w2, diag⟩
      simp only [pipelineLoop, h, countPrep_append, hev, ih w2, List.length_cons]
      omega
    | error e =>
      simp [pipelineLoop, h, hev]

theorem loop_receipts_le (steps : List Step) :
    ∀ w, ((pipelineLoop w steps).1.2).length ≤ steps.length := by
  induction steps with
  | nil => intro w; simp [pipelineLoop]
  | cons s rest ih =>
    intro w
    rcases h : cleaning_action w s.action s.params with ⟨res, ev⟩
    cases res with
    | ok val =>
      rcases val with ⟨w2, diag⟩
      simp only [pipelineLoop, h, List.length_cons]
      have := ih w2
      omega
    | error e =>
      simp [pipelineLoop, h]

theorem loop_receipts_actions (steps : List Step) :
    ∀ w, ((pipelineLoop w steps).1.2).map Receipt.action =
      (steps.take ((pipelineLoop w steps).1.2).length).map Step.action := by
  induction steps with
  | nil => intro w; rfl
  | cons s rest ih =>
    intro w
    rcases h : cleaning_action w s.action s.params with ⟨res, ev⟩
    cases res with
    | ok val =>
      rcases val with ⟨w2, diag⟩
      simp only [pipelineLoop, h, List.length_cons, List.take_succ_cons, List.map_cons]
      rw [ih w2]
    | error e =>
      simp [pipelineLoop, h]

/- ===================== Claim theorems ===================== -/

/-- C6: the Preprocessor is idempotent - preparing an already prepared
dataset changes nothing: preprocess_nulls_and_text applied twice equals
its single application, for every dataset. -/
theorem preprocess_idempotent (d : Dataset) :
    preprocess_nulls_and_text (preprocess_nulls_and_text d) = preprocess_nulls_and_text d := by
  cases d with
  | mk h rows =>
    simp only [preprocess_nulls_and_text]
    congr 1
    induction rows with
    | nil => rfl
    | cons r t ih =>
      simp only [List.map_cons, List.cons.injEq]
      exact ⟨map_prepCell_stable r, ih⟩

/-- C1 counterexample: on a well-formed one-row dataset and a two-step
pipeline, the Preprocessor runs three times, not once - once by the
orchestrator and once inside cleaning_action for each step - and the
second step's transform receives the preprocessed image of the first
step's output (the calculated column's value trimmed from " x " to "x"),
which differs from that output. This falsifies "prepare applied only
once at the start" and "the working dataset passed to the transform of
step s_i is the result of the previous step's transform". -/
theorem preprocessor_once_counterexample :
    countPrep (execute_pipeline ⟨["a"], [[Value.num 1]]⟩
      [⟨"general_create_calculated_column",
        [("new_column", Value.str "b"), ("value", Value.str " x ")]⟩,
       ⟨"general_drop_duplicates", []⟩]).2 = 3 ∧
    execute_function "crear_columna_calculada_wrapper" ⟨["a"], [[Value.num 1]]⟩
      [("new_column", Value.str "b"), ("value", Value.str " x ")]
      = Except.ok (⟨["a", "b"], [[Value.num 1, Value.str " x "]]⟩, "columna calculada creada") ∧
    Event.exec "eliminar_duplicados" ⟨["a", "b"], [[Value.num 1, Value.str "x"]]⟩ ∈
      (execute_pipeline ⟨["a"], [[Value.num 1]]⟩
        [⟨"general_create_calculated_column",
          [("new_column", Value.str "b"), ("value", Value.str " x ")]⟩,
         ⟨"general_drop_duplicates", []⟩]).2 ∧
    (⟨["a", "b"], [[Value.num 1, Value.str "x"]]⟩ : Dataset) ≠
      ⟨["a", "b"], [[Value.num 1, Value.str " x "]]⟩ :=
  ⟨by decide, by rfl, by decide, by decide⟩

/-- C1 (amended): the Preprocessor runs once at the start of the
pipeline and additionally once inside cleaning_action for every
attempted step, so every run of execute_pipeline on a well-formed base
dataset applies it exactly 1 + (number of receipts) times, and each
step's transform receives the preprocessed image of the previous working
dataset rather than the previous transform's raw output. -/
theorem preprocessor_per_step_amended (D : Dataset) (steps : List Step)
    (h : D.wf = true) :
    countPrep (execute_pipeline D steps).2 =
      1 + (receiptsOf (execute_pipeline D steps).1).length := by
  have hl := loop_prep_receipts steps (preprocess_nulls_and_text D)
  simp only [execute_pipeline, h, if_true, receiptsOf, countPrep_cons_prep]
  rw [hl]

/-- Witness for the amended C1 theorem at a concrete dataset and a
one-step pipeline. -/
theorem preprocessor_per_step_amended_witness :
    (Dataset.wf ⟨["a"], [[Value.num 1]]⟩) = true ∧
    countPrep (execute_pipeline ⟨["a"], [[Value.num 1]]⟩
        [⟨"general_drop_duplicates", []⟩]).2 =
      1 + (receiptsOf (execute_pipeline ⟨["a"], [[Value.num 1]]⟩
        [⟨"general_drop_duplicates", []⟩]).1).length :=
  ⟨by decide,
   preprocessor_per_step_amended ⟨["a"], [[Value.num 1]]⟩
     [⟨"general_drop_duplicates", []⟩] (by decide)⟩

/-- C2: a step whose action identifier is not a key of ACTION_MAP makes
the dispatcher cleaning_action fail with the UnknownAction error before
invoking any transform (its trace holds the Preprocessor application and
no transform invocation), and the orchestrator loop halts at that step:
the working dataset is returned as-is with the single failing receipt
and the remaining steps are never attempted. -/
theorem unknown_action_fails_and_halts (df w : Dataset) (a : String)
    (p : List (String × Value)) (rest : List Step) (h : lookupAction a = none) :
    cleaning_action df a p = (Except.error (CleanError.unknownAction a), [Event.prep]) ∧
    pipelineLoop w (⟨a, p⟩ :: rest) =
      ((w, [⟨a, false, describeCleanError (CleanError.unknownAction a),
            w.rows.length, w.rows.length⟩]), [Event.prep]) := by
  have h1 : cleaning_action w a p =
      (Except.error (CleanError.unknownAction a), [Event.prep]) := by
    simp [cleaning_action, h]
  refine ⟨by simp [cleaning_action, h], ?_⟩
  simp [pipelineLoop, h1]

/-- Witness for C2 at the unknown action "foo" on a concrete dataset. -/
theorem unknown_action_fails_and_halts_witness :
    cleaning_action ⟨["a"], [[Value.num 1]]⟩ "foo" [] =
      (Except.error (CleanError.unknownAction "foo"), [Event.prep]) ∧
    pipelineLoop ⟨["a"], [[Value.num 1]]⟩ [⟨"foo", []⟩] =
      ((⟨["a"], [[Value.num 1]]⟩,
        [⟨"foo", false, describeCleanError (CleanError.unknownAction "foo"), 1, 1⟩]),
       [Event.prep]) :=
  unknown_action_fails_and_halts ⟨["a"], [[Value.num 1]]⟩ ⟨["a"], [[Value.num 1]]⟩
    "foo" [] [] (by decide)

/-- C3: the engine never reports failures by aborting - for every base
dataset and step list, execute_pipeline returns the explicit top-level
PipelineError exactly when the base dataset is malformed, and otherwise
always a well-formed (dataset, receipts, diagnostics) triple whose
diagnostics describe the returned dataset and whose receipts are an
in-order prefix of the requested steps, step failures included. -/
theorem engine_total_return_shape (D : Dataset) (steps : List Step) :
    (D.wf = false → (execute_pipeline D steps).1 = Except.error PipelineError.malformedBase) ∧
    (D.wf = true → ∃ d rs g, (execute_pipeline D steps).1 = Except.ok (d, rs, g) ∧
      g = analyze d ∧ rs.length ≤ steps.length ∧
      rs.map Receipt.action = (steps.take rs.length).map Step.action) := by
  constructor
  · intro h
    simp [execute_pipeline, h]
  · intro h
    refine ⟨(pipelineLoop (preprocess_nulls_and_text D) steps).1.1,
            (pipelineLoop (preprocess_nulls_and_text D) steps).1.2,
            analyze (pipelineLoop (preprocess_nulls_and_text D) steps).1.1,
            ?_, rfl, loop_receipts_le steps _, loop_receipts_actions steps _⟩
    simp [execute_pipeline, h]

/-- Witness for C3: a ragged base dataset yields the top-level error,
and a well-formed dataset with an unknown-action step still yields a
well-formed triple. -/
theorem engine_total_return_shape_witness :
    (execute_pipeline ⟨["a", "b"], [[Value.num 1]]⟩ []).1 =
      Except.error PipelineError.malformedBase ∧
    (∃ d rs g, (execute_pipeline ⟨["a"], [[Value.num 1]]⟩ [⟨"nope", []⟩]).1 =
        Except.ok (d, rs, g) ∧ g = analyze d ∧
        rs.length ≤ ([⟨"nope", []⟩] : List Step).length ∧
        rs.map Receipt.action =
          (([⟨"nope", []⟩] : List Step).take rs.length).map Step.action) :=
  ⟨(engine_total_return_shape ⟨["a", "b"], [[Value.num 1]]⟩ []).1 (by decide),
   (engine_total_return_shape ⟨["a"], [[Value.num 1]]⟩ [⟨"nope", []⟩]).2 (by decide)⟩

/-- C4: on an empty step list the engine returns exactly the prepared
dataset, an empty receipt list, and the diagnostics of the prepared
dataset. -/
theorem empty_steps_returns_prepared (D : Dataset) (h : D.wf = true) :
    (execute_pipeline D []).1 =
      Except.ok (preprocess_nulls_and_text D, [],
                 analyze (preprocess_nulls_and_text D)) := by
  simp [execute_pipeline, h, pipelineLoop]

/-- Witness for C4 at a concrete well-formed dataset. -/
theorem empty_steps_returns_prepared_witness :
    (Dataset.wf ⟨["a"], [[Value.num 1]]⟩) = true ∧
    (execute_pipeline ⟨["a"], [[Value.num 1]]⟩ []).1 =
      Except.ok (preprocess_nulls_and_text ⟨["a"], [[Value.num 1]]⟩, [],
                 analyze (preprocess_nulls_and_text ⟨["a"], [[Value.num 1]]⟩)) :=
  ⟨by decide, empty_steps_returns_prepared ⟨["a"], [[Value.num 1]]⟩ (by decide)⟩

/-- C5: the pipeline never mutates the caller's original base dataset -
the preview route returns the server state (holding the stored original
dataset) unchanged for every step list, and on a well-formed base the
final dataset the engine returns is the fold of the step loop over the
prepared copy preprocess_nulls_and_text of the base, i.e. a value
derived from the prepared copy rather than the base dataset object. -/
theorem pipeline_preserves_base_dataset (st : ServerState) (steps : List Step) :
    (recalculate_pipeline_preview st steps).1 = st ∧
    (st.stored.wf = true →
      (execute_pipeline st.stored steps).1 =
        Except.ok ((pipelineLoop (preprocess_nulls_and_text st.stored) steps).1.1,
                   (pipelineLoop (preprocess_nulls_and_text st.stored) steps).1.2,
                   analyze (pipelineLoop (preprocess_nulls_and_text st.stored) steps).1.1)) := by
  constructor
  · unfold recalculate_pipeline_preview load_original_dataset
    cases hE : (execute_pipeline st.stored steps).1 with
    | ok v =>
      rcases v with ⟨d, rs, g⟩
      simp [hE]
    | error e =>
      simp [hE]
  · intro h
    simp [execute_pipeline, h]

/-- Witness for C5 at a concrete stored dataset and an empty step list. -/
theorem pipeline_preserves_base_dataset_witness :
    (recalculate_pipeline_preview ⟨⟨["a"], [[Value.num 1]]⟩⟩ []).1 =
      ⟨⟨["a"], [[Value.num 1]]⟩⟩ ∧
    (execute_pipeline (ServerState.stored ⟨⟨["a"], [[Value.num 1]]⟩⟩) []).1 =
      Except.ok ((pipelineLoop (preprocess_nulls_and_text
                    (ServerState.stored ⟨⟨["a"], [[Value.num 1]]⟩⟩)) []).1.1,
                 (pipelineLoop (preprocess_nulls_and_text
                    (ServerState.stored ⟨⟨["a"], [[Value.num 1]]⟩⟩)) []).1.2,
                 analyze (pipelineLoop (preprocess_nulls_and_text
                    (ServerState.stored ⟨⟨["a"], [[Value.num 1]]⟩⟩)) []).1.1) :=
  ⟨(pipeline_preserves_base_dataset ⟨⟨["a"], [[Value.num 1]]⟩⟩ []).1,
   (pipeline_preserves_base_dataset ⟨⟨["a"], [[Value.num 1]]⟩⟩ []).2 (by decide)⟩

theorem find?_map_snd_mem (l : List (String × String)) (a f : String)
    (h : (l.find? (fun kv => kv.1 == a)).map Prod.snd = some f) :
    f ∈ l.map Prod.snd := by
  induction l with
  | nil => simp at h
  | cons kv t ih =>
    cases hk : (kv.1 == a) with
    | true =>
      simp only [List.find?, hk] at h
      simp at h
      simp [h]
    | false =>
      simp only [List.find?, hk] at h
      have hm := ih h
      simp [hm]

/-- C7: the dispatcher invokes a transform for an action only when the
action is a key of ACTION_MAP, and the invoked internal function is
exactly the one the registry binds to that key - hence also one of the
registry's values; no transform is reachable outside the registry. -/
theorem transform_only_from_registry (df : Dataset) (a : String)
    (p : List (String × Value)) (f : String) (din : Dataset)
    (h : Event.exec f din ∈ (cleaning_action df a p).2) :
    lookupAction a = some f ∧ f ∈ ACTION_MAP.map Prod.snd := by
  rcases hl : lookupAction a with _ | fname
  · simp [cleaning_action, hl] at h
  · have hf : f = fname := by
      rcases he : execute_function fname (preprocess_nulls_and_text df) p with e | val
      · simp [cleaning_action, hl, he] at h
        exact h.1
      · rcases val with ⟨dd, msg⟩
        simp [cleaning_action, hl, he] at h
        exact h.1
    subst hf
    refine ⟨rfl, find?_map_snd_mem ACTION_MAP a f ?_⟩
    unfold lookupAction at hl
    exact hl

/-- Witness for C7: a registered action observed in a concrete dispatch
trace resolves to its registered internal function. -/
theorem transform_only_from_registry_witness :
    lookupAction "general_drop_duplicates" = some "eliminar_duplicados" ∧
    "eliminar_duplicados" ∈ ACTION_MAP.map Prod.snd :=
  transform_only_from_registry ⟨["a"], []⟩ "general_drop_duplicates" []
    "eliminar_duplicados" (preprocess_nulls_and_text ⟨["a"], []⟩) (by decide)

/-- C8 counterexample: after a failed load (the load attempt yields no
model and the except branch stores None), the cached slot holds None,
and the very next call with the load still failing re-enters the load
attempt - the failure is not remembered in a way that prevents retries,
falsifying "a post-failure call does not re-enter the load attempt". -/
theorem failed_load_retried_counterexample :
    (getOrLoadImageClassifier none none).state = none ∧
    (getOrLoadImageClassifier (getOrLoadImageClassifier none none).state none).attempted
      = true :=
  ⟨rfl, rfl⟩

/-- C8 (amended): a failed load leaves the cached slot at None, which is
indistinguishable from the not-yet-loaded sentinel, so every subsequent
call during the failure window re-enters the load attempt; only once a
load has succeeded (the slot holds a model) do later calls return the
cached model without re-attempting the load. -/
theorem failed_load_retry_behavior (load : Option Nat) (c : Nat) :
    getOrLoadImageClassifier none load = ⟨load, load, true⟩ ∧
    getOrLoadImageClassifier (some c) load = ⟨some c, some c, false⟩ :=
  ⟨rfl, rfl⟩

/-- C9: ModelManager construction and initialization are idempotent and
at-most-once - a second construction returns the instance of the first
(the class-level slot is reused), running the initializer on an already
initialized instance leaves its whole state (tools registry, both lazy
model slots and the initialization flag) unchanged, and initialization
composed with itself equals a single initialization. -/
theorem model_manager_init_idempotent (f g : Nat) (st : ModelManagerState) :
    (modelManagerNew (modelManagerNew none f).2 g).1 = (modelManagerNew none f).1 ∧
    (st.initDone = true → modelManagerInit st = st) ∧
    modelManagerInit (modelManagerInit st) = modelManagerInit st := by
  refine ⟨rfl, ?_, ?_⟩
  · intro h
    simp [modelManagerInit, h]
  · by_cases h : st.initDone = true
    · simp [modelManagerInit, h]
    · simp [modelManagerInit, h]

/-- Witness for C9 on a concrete already-initialized manager state. -/
theorem model_manager_init_idempotent_witness :
    modelManagerInit ⟨true, AVAILABLE_TOOLS, none, none⟩ =
      ⟨true, AVAILABLE_TOOLS, none, none⟩ :=
  (model_manager_init_idempotent 0 1 ⟨true, AVAILABLE_TOOLS, none, none⟩).2.1 rfl

/-- C10: a filename whose extension passes the allowed-extension check
but matches neither the .csv nor the .pdf parsing branch falls through
process_uploaded_file, which returns Python None (Option.none) rather
than any success or error dictionary. -/
theorem upload_fallthrough_returns_none (fs : FileStream) (fn : String)
    (h1 : is_allowed_extension fn = true)
    (h2 : strEndsWith fn ".csv" = false)
    (h3 : strEndsWith fn ".pdf" = false) :
    process_uploaded_file fs fn = none := by
  simp [process_uploaded_file, h1, h2, h3]

/-- Witness for C10 at the filename "notes.txt" (a .txt upload). -/
theorem upload_fallthrough_returns_none_witness :
    is_allowed_extension "notes.txt" = true ∧
    strEndsWith "notes.txt" ".csv" = false ∧
    strEndsWith "notes.txt" ".pdf" = false ∧
    process_uploaded_file ⟨none, none⟩ "notes.txt" = none :=
  ⟨by decide, by decide, by decide,
   upload_fallthrough_returns_none ⟨none, none⟩ "notes.txt"
     (by decide) (by decide) (by decide)⟩
